import Mathlib

/-!
Verification of the `IdMap` index wrapper of the faiss-rs repository
(`src/index/id_map.rs`).

The repository is a thin ownership-and-dispatch layer over an external,
handle-based vector search engine.  The Rust code under verification
contains three kinds of logic, each embedded below:

* buffer-length arithmetic and delegation: every operation computes
  `n = x.len() / d` and forwards the first `n` vectors (and ids) to a
  native entry point (`IdMap.add`, `IdMap.search`, ... below);
* accessor plumbing (`is_trained`, `ntotal`, `d`, `metric_type`,
  `id_map`);
* native-handle ownership (`IdMap::new`, `IdMap::into_inner`,
  `Drop for IdMap`), embedded as an explicit free-log state machine in
  the `Own` section.

The native engine itself is an external collaborator of the repository;
its operation contracts are modelled from the specification (each such
definition carries a `Modelled from the spec:` doc comment).  Vector
components and distances are modelled with exact integers (the ordering
and remapping claims do not depend on float rounding); the pad distance
used for empty result slots is `⊤` in `WithTop Int`, matching the
engine's use of an infinite distance for unfilled slots.
-/

namespace FaissRs

/-- Modelled from the spec: the metric kind enumeration of the `metric`
module (not under `src/`): an enumerated value (L2, inner product) set
at index construction and reported back by `metric_type()`. -/
inductive MetricType
  | innerProduct
  | l2
  deriving DecidableEq, Repr

/-- Modelled from the spec: the numeric code exchanged with the native
engine for each metric kind. -/
def MetricType.code : MetricType → Nat
  | .innerProduct => 0
  | .l2 => 1

/-- Modelled from the spec: decoding of a native metric code, `None` for
an unknown code (the Rust accessor unwraps this option). -/
def MetricType.from_code : Nat → Option MetricType
  | 0 => some MetricType.innerProduct
  | 1 => some MetricType.l2
  | _ => none

/-- Modelled from the spec: the error taxonomy of the `error` module
(not under `src/`): a native failure status, an unsupported-operation
report, and a dimension mismatch detected before a native call. -/
inductive FaissError
  | native (code : Int)
  | unsupportedOperation
  | dimensionMismatch
  deriving DecidableEq, Repr

/-- Decidable equality of operation results. -/
instance exceptDecEq {e a : Type} [DecidableEq e] [DecidableEq a] :
    DecidableEq (Except e a) := fun x y =>
  match x, y with
  | Except.ok u, Except.ok v =>
      if h : u = v then isTrue (by rw [h])
      else isFalse (by intro hc; cases hc; exact h rfl)
  | Except.ok _, Except.error _ => isFalse (by intro hc; cases hc)
  | Except.error _, Except.ok _ => isFalse (by intro hc; cases hc)
  | Except.error u, Except.error v =>
      if h : u = v then isTrue (by rw [h])
      else isFalse (by intro hc; cases hc; exact h rfl)

/-- Modelled from the spec: the observable state of a native base index:
fixed dimensionality, metric kind, trained flag, the minimum sample
count accepted by training, and the stored vectors. -/
structure FaissIndexState where
  d : Nat
  metric : MetricType
  trained : Bool
  minTrainPoints : Nat
  xb : List (List Int)
  deriving DecidableEq, Repr

/-- Modelled from the spec: the observable state of a native ID-mapping
structure: the wrapped sub-index plus the position-to-external-label
table. -/
structure FaissIndexIDMapState where
  sub : FaissIndexState
  idMap : List Int
  deriving DecidableEq, Repr

/-- Distance type: an exact squared distance, or `⊤` for the infinite
pad distance of unfilled result slots. -/
abbrev DistE := WithTop Int

/-- Squared L2 distance between two coordinate lists. -/
def sqDist (a b : List Int) : Int :=
  ((a.zip b).map fun p => (p.1 - p.2) ^ 2).sum

/-- The `n` dimension-`d` vectors read from a flat buffer, exactly as
the native engine reads them from the raw pointer. -/
def queryChunks (d : Nat) (x : List Int) (n : Nat) : List (List Int) :=
  (List.range n).map fun i => (x.drop (i * d)).take d

/-- Ordering of scored entries (distance, label) by distance. -/
def entryLE (a b : DistE × Int) : Prop := a.1 ≤ b.1

instance : DecidableRel entryLE := fun a b => inferInstanceAs (Decidable (a.1 ≤ b.1))

instance : IsTotal (DistE × Int) entryLE := ⟨fun a b => le_total a.1 b.1⟩

instance : IsTrans (DistE × Int) entryLE := ⟨fun _ _ _ h h' => le_trans h h'⟩

/-- The scored entries of a single query: each stored vector paired
with its internal sequential label. -/
def knnEntries (db : List (List Int)) (q : List Int) : List (DistE × Int) :=
  db.enum.map fun p => (((sqDist q p.2 : Int) : DistE), (p.1 : Int))

/-- Modelled from the spec: the k-nearest-neighbour result block for a
single query: every stored vector is scored, entries are ordered by
increasing distance, the first `k` are kept, and missing slots are
padded with the infinite distance and the reserved sentinel label
`-1`. -/
def knnOne (db : List (List Int)) (q : List Int) (k : Nat) : List (DistE × Int) :=
  (List.insertionSort entryLE (knnEntries db q)).take k ++
    List.replicate (k - db.length) (⊤, -1)

/-- Modelled from the spec: label remapping of the ID map structure: a
non-negative internal label is replaced by the external label at that
position; the negative sentinel is passed through unchanged. -/
def remapId (m : List Int) (l : Int) : Int :=
  if l < 0 then l else m.getD l.toNat (-1)

/-- The per-query result blocks of a search with `nq` query vectors read
from the flat buffer `q`. -/
def searchBlocks (s : FaissIndexIDMapState) (q : List Int) (nq k : Nat) :
    List (List (DistE × Int)) :=
  (queryChunks s.sub.d q nq).map fun qv => knnOne s.sub.xb qv k

/-- Modelled from the spec: the native `add` entry point on an ID-map
structure: fails with a native status if the index is untrained,
otherwise appends the `n` vectors read from the buffer and assigns
sequential internal labels starting at the current total. -/
def faiss_Index_add_IDMap (s : FaissIndexIDMapState) (n : Nat) (x : List Int) :
    Except FaissError Unit × FaissIndexIDMapState :=
  if s.sub.trained then
    (Except.ok (),
      { s with
        sub := { s.sub with xb := s.sub.xb ++ queryChunks s.sub.d x n }
        idMap := s.idMap ++ (List.range n).map fun i => ((s.sub.xb.length + i : Nat) : Int) })
  else (Except.error (FaissError.native 1), s)

/-- Modelled from the spec: the native `add_with_ids` entry point on an
ID-map structure: fails with a native status if the index is untrained,
otherwise appends the `n` vectors read from the buffer and records the
first `n` external labels read from the id buffer. -/
def faiss_Index_add_with_ids_IDMap (s : FaissIndexIDMapState) (n : Nat)
    (x : List Int) (xids : List Int) :
    Except FaissError Unit × FaissIndexIDMapState :=
  if s.sub.trained then
    (Except.ok (),
      { s with
        sub := { s.sub with xb := s.sub.xb ++ queryChunks s.sub.d x n }
        idMap := s.idMap ++ xids.take n })
  else (Except.error (FaissError.native 1), s)

/-- Modelled from the spec: the native `train` entry point: fails with a
native status when the sample is insufficient for the variant, and sets
the trained flag on success. -/
def faiss_Index_train_IDMap (s : FaissIndexIDMapState) (n : Nat) :
    Except FaissError Unit × FaissIndexIDMapState :=
  if n < s.sub.minTrainPoints then (Except.error (FaissError.native 1), s)
  else (Except.ok (), { s with sub := { s.sub with trained := true } })

/-- The per-query distance blocks of a search result. -/
def distBlocks (s : FaissIndexIDMapState) (q : List Int) (nq k : Nat) :
    List (List DistE) :=
  (searchBlocks s q nq k).map fun b => b.map Prod.fst

/-- The per-query label blocks of a search result, with internal labels
remapped to external ones. -/
def labelBlocks (s : FaissIndexIDMapState) (q : List Int) (nq k : Nat) :
    List (List Int) :=
  (searchBlocks s q nq k).map fun b => b.map fun e => remapId s.idMap e.2

/-- Modelled from the spec: the native `search` entry point on an ID-map
structure: fails with a native status if the index is untrained,
otherwise returns, per query, `k` entries ordered by increasing
distance with internal labels remapped to external ones; the state is
not changed by a read. -/
def faiss_Index_search_IDMap (s : FaissIndexIDMapState) (nq : Nat)
    (q : List Int) (k : Nat) :
    Except FaissError (List DistE × List Int) :=
  if s.sub.trained then
    Except.ok ((distBlocks s q nq k).flatten, (labelBlocks s q nq k).flatten)
  else Except.error (FaissError.native 1)

/-- Modelled from the spec: the native `assign` entry point: as `search`
but only the labels are reported. -/
def faiss_Index_assign_IDMap (s : FaissIndexIDMapState) (nq : Nat)
    (q : List Int) (k : Nat) :
    Except FaissError (List Int) :=
  if s.sub.trained then
    Except.ok (labelBlocks s q nq k).flatten
  else Except.error (FaissError.native 1)

/-- Modelled from the spec: the per-query entries of a range search:
every stored vector within the radius, with remapped labels. -/
def rangeBlocks (s : FaissIndexIDMapState) (q : List Int) (nq : Nat) (radius : Int) :
    List (List (Int × Int)) :=
  (queryChunks s.sub.d q nq).map fun qv =>
    s.sub.xb.enum.filterMap fun p =>
      if sqDist qv p.2 ≤ radius then
        some (sqDist qv p.2, remapId s.idMap (p.1 : Int))
      else none

/-- Modelled from the spec: a populated range-search result: a per-query
offset table into flat label and distance arrays. -/
structure RangeSearchResult where
  lims : List Nat
  distances : List Int
  labels : List Int
  deriving DecidableEq, Repr

/-- Modelled from the spec: the native `range_search` entry point:
fails with a native status if the index is untrained, otherwise fills a
range-search result with all within-radius entries per query. -/
def faiss_Index_range_search_IDMap (s : FaissIndexIDMapState) (nq : Nat)
    (q : List Int) (radius : Int) :
    Except FaissError RangeSearchResult :=
  if s.sub.trained then
    let blocks := rangeBlocks s q nq radius
    Except.ok
      { lims := (List.range (nq + 1)).map fun i => ((blocks.take i).map List.length).sum
        distances := (blocks.map fun b => b.map Prod.fst).flatten
        labels := (blocks.map fun b => b.map Prod.snd).flatten }
  else Except.error (FaissError.native 1)

/-- Modelled from the spec: the native `reset` entry point: clears the
stored vectors and the label table; the trained flag is unaffected. -/
def faiss_Index_reset_IDMap (s : FaissIndexIDMapState) :
    Except FaissError Unit × FaissIndexIDMapState :=
  (Except.ok (), { s with sub := { s.sub with xb := [] }, idMap := [] })

/-- Modelled from the spec: the native trained-flag accessor, a C
integer status (nonzero for trained). -/
def faiss_Index_is_trained_IDMap (s : FaissIndexIDMapState) : Int :=
  if s.sub.trained then 1 else 0

/-- Modelled from the spec: the native total-count accessor (a signed
64-bit value, always the number of stored vectors). -/
def faiss_Index_ntotal_IDMap (s : FaissIndexIDMapState) : Int :=
  s.sub.xb.length

/-- Modelled from the spec: the native dimensionality accessor. -/
def faiss_Index_d_IDMap (s : FaissIndexIDMapState) : Int :=
  s.sub.d

/-- Modelled from the spec: the native metric-kind accessor, reporting
the numeric code the index was constructed with. -/
def faiss_Index_metric_type_IDMap (s : FaissIndexIDMapState) : Nat :=
  s.sub.metric.code

/-- Result container of `search`: parallel distance and label
sequences. -/
structure SearchResult where
  distances : List DistE
  labels : List Int
  deriving DecidableEq, Repr

/-- Result container of `assign`: the label sequence alone. -/
structure AssignSearchResult where
  labels : List Int
  deriving DecidableEq, Repr

namespace IdMap

/-- Data view of `IdMap::new`: the native constructor wraps the consumed
index and starts with an empty label table (ownership effects are
embedded separately in the `Own` section). -/
def new (index : FaissIndexState) : FaissIndexIDMapState :=
  { sub := index, idMap := [] }

/-- `IdMap::id_map`: the slice view of the internal label table. -/
def id_map (s : FaissIndexIDMapState) : List Int :=
  s.idMap

/-- Data view of `IdMap::into_inner`: the standalone index rebuilt from
the inner handle, whose native state is the wrapped sub-index. -/
def into_inner (s : FaissIndexIDMapState) : FaissIndexState :=
  s.sub

/-- `Index::is_trained` for `IdMap`: nonzero native status. -/
def is_trained (s : FaissIndexIDMapState) : Bool :=
  faiss_Index_is_trained_IDMap s ≠ 0

/-- `Index::ntotal` for `IdMap`: the native count cast to `u64`. -/
def ntotal (s : FaissIndexIDMapState) : Nat :=
  (faiss_Index_ntotal_IDMap s).toNat

/-- `Index::d` for `IdMap`: the native dimensionality cast to `u32`. -/
def d (s : FaissIndexIDMapState) : Nat :=
  (faiss_Index_d_IDMap s).toNat

/-- `Index::metric_type` for `IdMap`: the decoded metric code; the Rust
accessor unwraps this option, so `none` models a panic. -/
def metric_type (s : FaissIndexIDMapState) : Option MetricType :=
  MetricType.from_code (faiss_Index_metric_type_IDMap s)

/-- `Index::add` for `IdMap`: forwards `n = x.len() / d` vectors to the
native entry point, with no validation of the buffer length. -/
def add (s : FaissIndexIDMapState) (x : List Int) :
    Except FaissError Unit × FaissIndexIDMapState :=
  faiss_Index_add_IDMap s (x.length / d s) x

/-- `Index::add_with_ids` for `IdMap`: forwards `n = x.len() / d`
vectors and the id buffer to the native entry point, with no validation
of either length. -/
def add_with_ids (s : FaissIndexIDMapState) (x : List Int) (xids : List Int) :
    Except FaissError Unit × FaissIndexIDMapState :=
  faiss_Index_add_with_ids_IDMap s (x.length / d s) x xids

/-- `Index::train` for `IdMap`: forwards `n = x.len() / d` training
vectors to the native entry point. -/
def train (s : FaissIndexIDMapState) (x : List Int) :
    Except FaissError Unit × FaissIndexIDMapState :=
  faiss_Index_train_IDMap s (x.length / d s)

/-- `Index::assign` for `IdMap`: allocates `k * nq` label slots and
fills them through the native entry point. -/
def assign (s : FaissIndexIDMapState) (query : List Int) (k : Nat) :
    Except FaissError AssignSearchResult × FaissIndexIDMapState :=
  match faiss_Index_assign_IDMap s (query.length / d s) query k with
  | Except.ok labels => (Except.ok { labels := labels }, s)
  | Except.error e => (Except.error e, s)

/-- `Index::search` for `IdMap`: allocates `k * nq` distance and label
slots and fills them through the native entry point. -/
def search (s : FaissIndexIDMapState) (query : List Int) (k : Nat) :
    Except FaissError SearchResult × FaissIndexIDMapState :=
  match faiss_Index_search_IDMap s (query.length / d s) query k with
  | Except.ok (distances, labels) =>
      (Except.ok { distances := distances, labels := labels }, s)
  | Except.error e => (Except.error e, s)

/-- `Index::range_search` for `IdMap`: allocates a native result for
`nq` queries and fills it through the native entry point. -/
def range_search (s : FaissIndexIDMapState) (query : List Int) (radius : Int) :
    Except FaissError RangeSearchResult × FaissIndexIDMapState :=
  match faiss_Index_range_search_IDMap s (query.length / d s) query radius with
  | Except.ok r => (Except.ok r, s)
  | Except.error e => (Except.error e, s)

/-- `Index::reset` for `IdMap`: delegates to the native entry point. -/
def reset (s : FaissIndexIDMapState) :
    Except FaissError Unit × FaissIndexIDMapState :=
  faiss_Index_reset_IDMap s

end IdMap

namespace ConcurrentIndex

/-- `ConcurrentIndex::assign` for `IdMap`: the shared-reference variant;
same native call as the exclusive one, no state handed back. -/
def assign (s : FaissIndexIDMapState) (query : List Int) (k : Nat) :
    Except FaissError AssignSearchResult :=
  match faiss_Index_assign_IDMap s (query.length / IdMap.d s) query k with
  | Except.ok labels => Except.ok { labels := labels }
  | Except.error e => Except.error e

/-- `ConcurrentIndex::search` for `IdMap`: the shared-reference variant;
same native call as the exclusive one, no state handed back. -/
def search (s : FaissIndexIDMapState) (query : List Int) (k : Nat) :
    Except FaissError SearchResult :=
  match faiss_Index_search_IDMap s (query.length / IdMap.d s) query k with
  | Except.ok (distances, labels) =>
      Except.ok { distances := distances, labels := labels }
  | Except.error e => Except.error e

/-- `ConcurrentIndex::range_search` for `IdMap`: the shared-reference
variant; same native call as the exclusive one, no state handed
back. -/
def range_search (s : FaissIndexIDMapState) (query : List Int) (radius : Int) :
    Except FaissError RangeSearchResult :=
  match faiss_Index_range_search_IDMap s (query.length / IdMap.d s) query radius with
  | Except.ok r => Except.ok r
  | Except.error e => Except.error e

end ConcurrentIndex

namespace Own

/-- Ownership world: a fresh-handle counter, the association of each
mapping handle to the sub-handle it owns, the `own_fields` flag of each
mapping handle, and the chronological log of native free calls. -/
structure World where
  nextId : Nat
  subIndex : List (Nat × Nat)
  ownFields : List (Nat × Bool)
  frees : List Nat
  deriving DecidableEq, Repr

/-- A live `IdMap` value as laid out in the Rust struct: the outer
mapping handle (`inner`) and the raw inner index handle
(`index_inner`). -/
structure IdMapVal where
  inner : Nat
  index_inner : Nat
  deriving DecidableEq, Repr

/-- A live standalone index value holding its native handle. -/
structure IndexVal where
  handle : Nat
  deriving DecidableEq, Repr

/-- Modelled from the spec: `faiss_Index_free`: releasing a mapping
handle whose `own_fields` flag is set also releases the sub-handle it
owns; any other handle releases only itself. -/
def faiss_Index_free (h : Nat) (w : World) : World :=
  match w.subIndex.lookup h, w.ownFields.lookup h with
  | some sh, some true => { w with frees := w.frees ++ [h, sh] }
  | _, _ => { w with frees := w.frees ++ [h] }

/-- Modelled from the spec: `faiss_IndexIDMap_new`: allocates a fresh
mapping handle around the given inner handle. -/
def faiss_IndexIDMap_new (innerHandle : Nat) (w : World) : Nat × World :=
  (w.nextId,
   { w with nextId := w.nextId + 1, subIndex := (w.nextId, innerHandle) :: w.subIndex })

/-- Modelled from the spec: `faiss_IndexIDMap_set_own_fields`: records
whether the mapping handle owns its sub-handle. -/
def faiss_IndexIDMap_set_own_fields (h : Nat) (b : Bool) (w : World) : World :=
  { w with ownFields := (h, b) :: w.ownFields }

/-- Ownership effect of `IdMap::new`: builds the mapping handle, sets
its owning flag, and `mem::forget`s the consumed index value so the
inner handle is not freed here. -/
def newOwn (idx : IndexVal) (w : World) : IdMapVal × World :=
  let p := faiss_IndexIDMap_new idx.handle w
  let w := faiss_IndexIDMap_set_own_fields p.1 true p.2
  ({ inner := p.1, index_inner := idx.handle }, w)

/-- Ownership effect of `Drop for IdMap`: frees the outer mapping
handle (the native structure then frees the inner handle exactly when
it still owns it). -/
def dropOwn (v : IdMapVal) (w : World) : World :=
  faiss_Index_free v.inner w

/-- Ownership effect of `IdMap::into_inner`: first flips the owning
flag off, then the consumed wrapper is dropped (freeing only the outer
handle), and a standalone index value is rebuilt from the inner
handle. -/
def into_innerOwn (v : IdMapVal) (w : World) : IndexVal × World :=
  let w := faiss_IndexIDMap_set_own_fields v.inner false w
  let w := dropOwn v w
  ({ handle := v.index_inner }, w)

/-- Ownership effect of dropping a standalone index: frees its
handle. -/
def dropIndex (v : IndexVal) (w : World) : World :=
  faiss_Index_free v.handle w

/-- A sequence of `n` wrap-then-unwrap cycles on an index value. -/
def cycles : Nat → IndexVal → World → IndexVal × World
  | 0, v, w => (v, w)
  | n + 1, v, w =>
      let p := newOwn v w
      let q := into_innerOwn p.1 p.2
      cycles n q.1 q.2

/-- The initial world: only the base index handle `0` allocated,
nothing freed. -/
def world0 : World :=
  { nextId := 1, subIndex := [], ownFields := [], frees := [] }

/-- The base index value owning handle `0`. -/
def index0 : IndexVal :=
  { handle := 0 }

/-- Full lifecycle ending unwrapped: `n` wrap/unwrap cycles, then the
standalone index is dropped. -/
def scenarioUnwrapped (n : Nat) : World :=
  let p := cycles n index0 world0
  dropIndex p.1 p.2

/-- Full lifecycle ending wrapped: `n` wrap/unwrap cycles, one final
wrap, then the wrapper is dropped while owning the inner handle. -/
def scenarioWrapped (n : Nat) : World :=
  let p := cycles n index0 world0
  let q := newOwn p.1 p.2
  dropOwn q.1 q.2

end Own

namespace BaseIndex

/-- Modelled from the spec: the dimensionality accessor of a standalone
base index (pure query of the index state). -/
def d (i : FaissIndexState) : Nat := i.d

/-- Modelled from the spec: the total-count accessor of a standalone
base index. -/
def ntotal (i : FaissIndexState) : Nat := i.xb.length

/-- Modelled from the spec: the trained-flag accessor of a standalone
base index. -/
def is_trained (i : FaissIndexState) : Bool := i.trained

/-- Modelled from the spec: the metric-kind accessor of a standalone
base index, decoding the native metric code. -/
def metric_type (i : FaissIndexState) : Option MetricType :=
  MetricType.from_code i.metric.code

end BaseIndex

/-- A trained, empty, two-dimensional L2 example index used by the
witnesses. -/
def exIndex : FaissIndexState :=
  { d := 2, metric := MetricType.l2, trained := true, minTrainPoints := 0, xb := [] }

/-- The example index wrapped in an (empty) ID map. -/
def exState : FaissIndexIDMapState :=
  { sub := exIndex, idMap := [] }

/-- An untrained example wrapper whose data operations fail with a
native status. -/
def exUntrained : FaissIndexIDMapState :=
  { sub := { d := 2, metric := MetricType.l2, trained := false,
             minTrainPoints := 5, xb := [] },
    idMap := [] }

/-- The example wrapper populated with two labelled vectors. -/
def exLoaded : FaissIndexIDMapState :=
  (IdMap.add_with_ids exState [0, 1, 5, 5] [10, 20]).2

/-! Helper lemmas shared by the claim theorems. -/

theorem d_unfold (s : FaissIndexIDMapState) : IdMap.d s = s.sub.d :=
  Int.toNat_ofNat _

theorem ntotal_unfold (s : FaissIndexIDMapState) : IdMap.ntotal s = s.sub.xb.length :=
  Int.toNat_ofNat _

theorem is_trained_unfold (s : FaissIndexIDMapState) :
    IdMap.is_trained s = s.sub.trained := by
  unfold IdMap.is_trained faiss_Index_is_trained_IDMap
  cases s.sub.trained <;> simp

theorem sorted_entries_length (db : List (List Int)) (q : List Int) :
    (List.insertionSort entryLE (knnEntries db q)).length = db.length := by
  rw [List.length_insertionSort]
  unfold knnEntries
  rw [List.length_map, List.enum_length]

theorem knnOne_length (db : List (List Int)) (q : List Int) (k : Nat) :
    (knnOne db q k).length = k := by
  unfold knnOne
  rw [List.length_append, List.length_take, List.length_replicate, sorted_entries_length]
  omega

theorem knnOne_map_sorted (db : List (List Int)) (q : List Int) (k : Nat) :
    List.Sorted (· ≤ ·) ((knnOne db q k).map Prod.fst) := by
  unfold knnOne
  rw [List.map_append, List.map_replicate]
  show List.Pairwise _ _
  rw [List.pairwise_append]
  refine ⟨?_, ?_, ?_⟩
  · rw [List.pairwise_map]
    exact List.Pairwise.sublist (List.take_sublist _ _)
      (List.sorted_insertionSort entryLE (knnEntries db q))
  · rw [List.pairwise_replicate]
    exact Or.inr le_rfl
  · intro a _ b hb
    rw [List.eq_of_mem_replicate hb]
    exact le_top

theorem knnOne_map_drop_sentinel {α : Type} (db : List (List Int)) (q : List Int)
    (k : Nat) (f : DistE × Int → α) (hL : db.length ≤ k) :
    ((knnOne db q k).map f).drop db.length =
      List.replicate (k - db.length) (f (⊤, -1)) := by
  unfold knnOne
  rw [List.take_of_length_le (le_trans (le_of_eq (sorted_entries_length db q)) hL)]
  rw [List.map_append, List.map_replicate]
  have hml : ((List.insertionSort entryLE (knnEntries db q)).map f).length = db.length := by
    rw [List.length_map, sorted_entries_length]
  rw [← hml, List.drop_left]

theorem queryChunks_take (d n : Nat) (x : List Int) :
    queryChunks d (x.take (n * d)) n = queryChunks d x n := by
  unfold queryChunks
  apply List.map_congr_left
  intro i hi
  rw [List.mem_range] at hi
  rw [List.drop_take, List.take_take]
  congr 1
  have h1 : (i + 1) * d ≤ n * d := Nat.mul_le_mul_right d hi
  rw [Nat.succ_mul] at h1
  omega

theorem take_div_length (d : Nat) (x : List Int) :
    (x.take (x.length / d * d)).length / d = x.length / d := by
  rcases Nat.eq_zero_or_pos d with h | h
  · subst h; simp
  · rw [List.length_take, min_eq_left (Nat.div_mul_le_self _ _)]
    exact Nat.mul_div_cancel _ h

theorem queryChunks_length (d n : Nat) (x : List Int) :
    (queryChunks d x n).length = n := by
  unfold queryChunks
  rw [List.length_map, List.length_range]

theorem count_range_lt {h n : Nat} (hl : h < n) : (List.range n).count h = 1 :=
  List.count_eq_one_of_mem (List.nodup_range n) (List.mem_range.mpr hl)

theorem count_range_ge {h n : Nat} (hl : n ≤ h) : (List.range n).count h = 0 :=
  List.count_eq_zero_of_not_mem fun hm =>
    absurd (List.mem_range.mp hm) (Nat.not_lt.mpr hl)

theorem cycles_spec (n : Nat) :
    ∀ (v : Own.IndexVal) (w : Own.World),
      v.handle < w.nextId →
      w.subIndex.lookup v.handle = none →
      ∃ si of,
        Own.cycles n v w =
          (v, { nextId := w.nextId + n, subIndex := si, ownFields := of,
                frees := w.frees ++ List.range' w.nextId n }) ∧
        si.lookup v.handle = none := by
  induction n with
  | zero =>
      intro v w hv hsub
      exact ⟨w.subIndex, w.ownFields, by simp [Own.cycles], hsub⟩
  | succ n ih =>
      intro v w hv hsub
      have hne : (v.handle == w.nextId) = false := by
        simp [Nat.ne_of_lt hv]
      have hstep : Own.cycles (n + 1) v w =
          Own.cycles n v
            { nextId := w.nextId + 1,
              subIndex := (w.nextId, v.handle) :: w.subIndex,
              ownFields := (w.nextId, false) :: (w.nextId, true) :: w.ownFields,
              frees := w.frees ++ [w.nextId] } := by
        simp [Own.cycles, Own.newOwn, Own.into_innerOwn, Own.dropOwn,
          Own.faiss_IndexIDMap_new, Own.faiss_IndexIDMap_set_own_fields,
          Own.faiss_Index_free, List.lookup]
      obtain ⟨si, of, hc, hl⟩ :=
        ih v
          { nextId := w.nextId + 1,
            subIndex := (w.nextId, v.handle) :: w.subIndex,
            ownFields := (w.nextId, false) :: (w.nextId, true) :: w.ownFields,
            frees := w.frees ++ [w.nextId] }
          (Nat.lt_succ_of_lt hv)
          (by simp [List.lookup, hne, hsub])
      refine ⟨si, of, ?_, hl⟩
      rw [hstep, hc]
      have harr : (w.frees ++ [w.nextId]) ++ List.range' (w.nextId + 1) n =
          w.frees ++ List.range' w.nextId (n + 1) := by
        rw [List.append_assoc, List.range'_succ]
        rfl
      rw [harr]
      have hni : w.nextId + 1 + n = w.nextId + (n + 1) := by omega
      rw [hni]

/-! Claim theorems. -/

/-- C1: on the ID-map wrapper, `add_with_ids` under the training
precondition (with a well-formed id buffer, as required by the
operation contract) succeeds — in particular it never fails with
`UnsupportedOperation` — and the subsequent `id_map()` view equals the
previous label table extended with exactly the given external labels in
order.  `id_map` is a pure view of the state, so repeated calls without
an interleaved mutation return the same sequence. -/
theorem add_with_ids_appends_labels (s : FaissIndexIDMapState) (x ids : List Int)
    (ht : s.sub.trained = true) (hlen : ids.length = x.length / s.sub.d) :
    (IdMap.add_with_ids s x ids).1 = Except.ok () ∧
    IdMap.id_map (IdMap.add_with_ids s x ids).2 = IdMap.id_map s ++ ids := by
  unfold IdMap.add_with_ids faiss_Index_add_with_ids_IDMap IdMap.id_map
  rw [d_unfold]
  simp [ht]
  omega

/-- Witness for C1: adding two vectors with labels 10 and 20 to the
trained example wrapper succeeds and records exactly those labels. -/
theorem add_with_ids_appends_labels_witness :
    (IdMap.add_with_ids exState [1, 2, 3, 4] [10, 20]).1 = Except.ok () ∧
    IdMap.id_map (IdMap.add_with_ids exState [1, 2, 3, 4] [10, 20]).2 =
      IdMap.id_map exState ++ [10, 20] :=
  add_with_ids_appends_labels exState [1, 2, 3, 4] [10, 20] rfl (by decide)

/-- C3: wrapping an index and immediately unwrapping it yields the very
same index state, so `d`, `ntotal`, `is_trained` and `metric_type`
all agree with their values before wrapping. -/
theorem wrap_unwrap_roundtrip (i : FaissIndexState) :
    IdMap.into_inner (IdMap.new i) = i ∧
    BaseIndex.d (IdMap.into_inner (IdMap.new i)) = BaseIndex.d i ∧
    BaseIndex.ntotal (IdMap.into_inner (IdMap.new i)) = BaseIndex.ntotal i ∧
    BaseIndex.is_trained (IdMap.into_inner (IdMap.new i)) = BaseIndex.is_trained i ∧
    BaseIndex.metric_type (IdMap.into_inner (IdMap.new i)) = BaseIndex.metric_type i :=
  ⟨rfl, rfl, rfl, rfl, rfl⟩

/-- C4 counterexample: a call with three ids for two vectors (so
`len(ids) ≠ len(vectors)/d`) is not rejected: it returns success
instead of failing with `DimensionMismatch`. -/
theorem add_with_ids_mismatch_not_rejected :
    ([10, 20, 30] : List Int).length ≠ ([1, 2, 3, 4] : List Int).length / exState.sub.d ∧
    (IdMap.add_with_ids exState [1, 2, 3, 4] [10, 20, 30]).1 = Except.ok () := by
  constructor
  · decide
  · rfl

/-- C4 amended: `add_with_ids` performs no length validation at all:
under the training precondition it succeeds for any id-buffer length,
forwarding `n = ⌊len(vectors)/d⌋` vectors and the first `n` ids to the
engine, and never produces `DimensionMismatch`. -/
theorem add_with_ids_no_validation (s : FaissIndexIDMapState) (x ids : List Int)
    (ht : s.sub.trained = true) :
    (IdMap.add_with_ids s x ids).1 = Except.ok () ∧
    IdMap.id_map (IdMap.add_with_ids s x ids).2 =
      IdMap.id_map s ++ ids.take (x.length / s.sub.d) ∧
    IdMap.ntotal (IdMap.add_with_ids s x ids).2 =
      IdMap.ntotal s + x.length / s.sub.d := by
  unfold IdMap.add_with_ids faiss_Index_add_with_ids_IDMap IdMap.id_map
  rw [d_unfold]
  simp [ht, ntotal_unfold, queryChunks_length]

/-- Witness for the amended C4: three ids for two vectors are accepted,
the first two ids are recorded, and `ntotal` grows by two. -/
theorem add_with_ids_no_validation_witness :
    (IdMap.add_with_ids exState [1, 2, 3, 4] [10, 20, 30]).1 = Except.ok () ∧
    IdMap.id_map (IdMap.add_with_ids exState [1, 2, 3, 4] [10, 20, 30]).2 =
      IdMap.id_map exState ++ ([10, 20, 30] : List Int).take
        (([1, 2, 3, 4] : List Int).length / exState.sub.d) ∧
    IdMap.ntotal (IdMap.add_with_ids exState [1, 2, 3, 4] [10, 20, 30]).2 =
      IdMap.ntotal exState + ([1, 2, 3, 4] : List Int).length / exState.sub.d :=
  add_with_ids_no_validation exState [1, 2, 3, 4] [10, 20, 30] rfl

/-- C5: the shared-reference (`ConcurrentIndex`) read operations
`search`, `assign` and `range_search` return exactly the result of the
corresponding exclusive (`Index`) operation on the same state, and the
exclusive operations leave the state unchanged. -/
theorem concurrent_reads_agree (s : FaissIndexIDMapState) (q : List Int)
    (k : Nat) (radius : Int) :
    ConcurrentIndex.search s q k = (IdMap.search s q k).1 ∧
    (IdMap.search s q k).2 = s ∧
    ConcurrentIndex.assign s q k = (IdMap.assign s q k).1 ∧
    (IdMap.assign s q k).2 = s ∧
    ConcurrentIndex.range_search s q radius = (IdMap.range_search s q radius).1 ∧
    (IdMap.range_search s q radius).2 = s := by
  refine ⟨?_, ?_, ?_, ?_, ?_, ?_⟩
  · unfold ConcurrentIndex.search IdMap.search
    cases faiss_Index_search_IDMap s (q.length / IdMap.d s) q k <;> rfl
  · unfold IdMap.search
    cases faiss_Index_search_IDMap s (q.length / IdMap.d s) q k <;> rfl
  · unfold ConcurrentIndex.assign IdMap.assign
    cases faiss_Index_assign_IDMap s (q.length / IdMap.d s) q k <;> rfl
  · unfold IdMap.assign
    cases faiss_Index_assign_IDMap s (q.length / IdMap.d s) q k <;> rfl
  · unfold ConcurrentIndex.range_search IdMap.range_search
    cases faiss_Index_range_search_IDMap s (q.length / IdMap.d s) q radius <;> rfl
  · unfold IdMap.range_search
    cases faiss_Index_range_search_IDMap s (q.length / IdMap.d s) q radius <;> rfl

theorem remapId_neg_one (m : List Int) : remapId m (-1) = -1 := by
  unfold remapId
  norm_num

theorem searchBlocks_take (s : FaissIndexIDMapState) (x : List Int) (n k : Nat) :
    searchBlocks s (x.take (n * s.sub.d)) n k = searchBlocks s x n k := by
  unfold searchBlocks
  rw [queryChunks_take]

theorem rangeBlocks_take (s : FaissIndexIDMapState) (x : List Int) (n : Nat)
    (radius : Int) :
    rangeBlocks s (x.take (n * s.sub.d)) n radius = rangeBlocks s x n radius := by
  unfold rangeBlocks
  rw [queryChunks_take]

/-- C6: a successful `search` returns its distances as the
concatenation of one block of `k` distances per query, and within each
block the distances are in non-decreasing order (nearest first). -/
theorem search_distances_sorted (s : FaissIndexIDMapState) (q : List Int) (k : Nat)
    (ht : s.sub.trained = true) :
    ∃ r, (IdMap.search s q k).1 = Except.ok r ∧
      r.distances = (distBlocks s q (q.length / IdMap.d s) k).flatten ∧
      (∀ b ∈ distBlocks s q (q.length / IdMap.d s) k, b.length = k) ∧
      ∀ b ∈ distBlocks s q (q.length / IdMap.d s) k, List.Sorted (· ≤ ·) b := by
  refine ⟨⟨(distBlocks s q (q.length / IdMap.d s) k).flatten,
           (labelBlocks s q (q.length / IdMap.d s) k).flatten⟩, ?_, rfl, ?_, ?_⟩
  · unfold IdMap.search faiss_Index_search_IDMap
    simp [ht]
  · intro b hb
    unfold distBlocks searchBlocks at hb
    obtain ⟨c, hc, rfl⟩ := List.mem_map.mp hb
    obtain ⟨qv, _, rfl⟩ := List.mem_map.mp hc
    rw [List.length_map, knnOne_length]
  · intro b hb
    unfold distBlocks searchBlocks at hb
    obtain ⟨c, hc, rfl⟩ := List.mem_map.mp hb
    obtain ⟨qv, _, rfl⟩ := List.mem_map.mp hc
    exact knnOne_map_sorted _ _ _

/-- Witness for C6 at the populated example state with two queries. -/
theorem search_distances_sorted_witness :
    ∃ r, (IdMap.search exLoaded [0, 0, 9, 9] 1).1 = Except.ok r ∧
      r.distances =
        (distBlocks exLoaded [0, 0, 9, 9] (([0, 0, 9, 9] : List Int).length / IdMap.d exLoaded) 1).flatten ∧
      (∀ b ∈ distBlocks exLoaded [0, 0, 9, 9] (([0, 0, 9, 9] : List Int).length / IdMap.d exLoaded) 1,
        b.length = 1) ∧
      ∀ b ∈ distBlocks exLoaded [0, 0, 9, 9] (([0, 0, 9, 9] : List Int).length / IdMap.d exLoaded) 1,
        List.Sorted (· ≤ ·) b :=
  search_distances_sorted exLoaded [0, 0, 9, 9] 1 (by decide)

/-- C7: with `k` exceeding `ntotal`, `search` and `assign` do not
error: each per-query label block still has length `k` and all slots
beyond the stored count hold the reserved sentinel label `-1`. -/
theorem overlong_k_fills_sentinels (s : FaissIndexIDMapState) (q : List Int) (k : Nat)
    (ht : s.sub.trained = true) (hk : IdMap.ntotal s < k) :
    (∃ r, (IdMap.search s q k).1 = Except.ok r ∧
        r.labels = (labelBlocks s q (q.length / IdMap.d s) k).flatten) ∧
    (∃ r, (IdMap.assign s q k).1 = Except.ok r ∧
        r.labels = (labelBlocks s q (q.length / IdMap.d s) k).flatten) ∧
    ∀ b ∈ labelBlocks s q (q.length / IdMap.d s) k,
      b.length = k ∧
      b.drop (IdMap.ntotal s) = List.replicate (k - IdMap.ntotal s) (-1) := by
  rw [ntotal_unfold] at hk
  refine ⟨⟨⟨(distBlocks s q (q.length / IdMap.d s) k).flatten,
            (labelBlocks s q (q.length / IdMap.d s) k).flatten⟩, ?_, rfl⟩,
          ⟨⟨(labelBlocks s q (q.length / IdMap.d s) k).flatten⟩, ?_, rfl⟩, ?_⟩
  · unfold IdMap.search faiss_Index_search_IDMap
    simp [ht]
  · unfold IdMap.assign faiss_Index_assign_IDMap
    simp [ht]
  · intro b hb
    unfold labelBlocks searchBlocks at hb
    obtain ⟨c, hc, rfl⟩ := List.mem_map.mp hb
    obtain ⟨qv, _, rfl⟩ := List.mem_map.mp hc
    refine ⟨by rw [List.length_map, knnOne_length], ?_⟩
    rw [ntotal_unfold]
    rw [knnOne_map_drop_sentinel _ _ _ _ (le_of_lt hk), remapId_neg_one]

/-- Witness for C7: requesting three neighbours from the two-vector
example state. -/
theorem overlong_k_fills_sentinels_witness :
    (∃ r, (IdMap.search exLoaded [0, 0] 3).1 = Except.ok r ∧
        r.labels = (labelBlocks exLoaded [0, 0] (([0, 0] : List Int).length / IdMap.d exLoaded) 3).flatten) ∧
    (∃ r, (IdMap.assign exLoaded [0, 0] 3).1 = Except.ok r ∧
        r.labels = (labelBlocks exLoaded [0, 0] (([0, 0] : List Int).length / IdMap.d exLoaded) 3).flatten) ∧
    ∀ b ∈ labelBlocks exLoaded [0, 0] (([0, 0] : List Int).length / IdMap.d exLoaded) 3,
      b.length = 3 ∧
      b.drop (IdMap.ntotal exLoaded) = List.replicate (3 - IdMap.ntotal exLoaded) (-1) :=
  overlong_k_fills_sentinels exLoaded [0, 0] 3 (by decide) (by decide)

/-- C8: whenever a fallible wrapper operation returns an error, the
index state is exactly as before the call, so `ntotal` and the trained
flag change only on success; `reset` always reports success. -/
theorem error_leaves_state_unchanged (s : FaissIndexIDMapState)
    (x ids q : List Int) (k : Nat) (radius : Int) :
    (∀ e, (IdMap.train s x).1 = Except.error e → (IdMap.train s x).2 = s) ∧
    (∀ e, (IdMap.add s x).1 = Except.error e → (IdMap.add s x).2 = s) ∧
    (∀ e, (IdMap.add_with_ids s x ids).1 = Except.error e →
        (IdMap.add_with_ids s x ids).2 = s) ∧
    (∀ e, (IdMap.search s q k).1 = Except.error e → (IdMap.search s q k).2 = s) ∧
    (∀ e, (IdMap.assign s q k).1 = Except.error e → (IdMap.assign s q k).2 = s) ∧
    (∀ e, (IdMap.range_search s q radius).1 = Except.error e →
        (IdMap.range_search s q radius).2 = s) ∧
    (IdMap.reset s).1 = Except.ok () := by
  refine ⟨?_, ?_, ?_, ?_, ?_, ?_, rfl⟩
  · intro e h
    unfold IdMap.train faiss_Index_train_IDMap at h ⊢
    by_cases hc : x.length / IdMap.d s < s.sub.minTrainPoints
    · simp [hc]
    · simp [hc] at h
  · intro e h
    unfold IdMap.add faiss_Index_add_IDMap at h ⊢
    cases htr : s.sub.trained
    · simp [htr]
    · simp [htr] at h
  · intro e h
    unfold IdMap.add_with_ids faiss_Index_add_with_ids_IDMap at h ⊢
    cases htr : s.sub.trained
    · simp [htr]
    · simp [htr] at h
  · intro e _
    unfold IdMap.search
    cases faiss_Index_search_IDMap s (q.length / IdMap.d s) q k <;> rfl
  · intro e _
    unfold IdMap.assign
    cases faiss_Index_assign_IDMap s (q.length / IdMap.d s) q k <;> rfl
  · intro e _
    unfold IdMap.range_search
    cases faiss_Index_range_search_IDMap s (q.length / IdMap.d s) q radius <;> rfl

/-- Witness for C8 at an untrained example state on which all six
fallible operations fail. -/
theorem error_leaves_state_unchanged_witness :
    (IdMap.train exUntrained [1, 2]).2 = exUntrained ∧
    (IdMap.add exUntrained [1, 2]).2 = exUntrained ∧
    (IdMap.add_with_ids exUntrained [1, 2] [5]).2 = exUntrained ∧
    (IdMap.search exUntrained [1, 2] 1).2 = exUntrained ∧
    (IdMap.assign exUntrained [1, 2] 1).2 = exUntrained ∧
    (IdMap.range_search exUntrained [1, 2] 4).2 = exUntrained :=
  ⟨(error_leaves_state_unchanged exUntrained [1, 2] [5] [1, 2] 1 4).1
      (FaissError.native 1) (by decide),
   (error_leaves_state_unchanged exUntrained [1, 2] [5] [1, 2] 1 4).2.1
      (FaissError.native 1) (by decide),
   (error_leaves_state_unchanged exUntrained [1, 2] [5] [1, 2] 1 4).2.2.1
      (FaissError.native 1) (by decide),
   (error_leaves_state_unchanged exUntrained [1, 2] [5] [1, 2] 1 4).2.2.2.1
      (FaissError.native 1) (by decide),
   (error_leaves_state_unchanged exUntrained [1, 2] [5] [1, 2] 1 4).2.2.2.2.1
      (FaissError.native 1) (by decide),
   (error_leaves_state_unchanged exUntrained [1, 2] [5] [1, 2] 1 4).2.2.2.2.2.1
      (FaissError.native 1) (by decide)⟩

/-- C10: a flat buffer whose length is not a multiple of `d` yields no
dimension error on any operation: each operation forwards exactly
`⌊len/d⌋` vectors — it behaves identically on the buffer truncated to
`⌊len/d⌋ * d` elements, the trailing partial vector being ignored —
and `add` grows `ntotal` by `⌊len/d⌋`. -/
theorem partial_buffer_floored (s : FaissIndexIDMapState) (x ids : List Int)
    (k : Nat) (radius : Int) (hd : 0 < s.sub.d) (hx : x.length % s.sub.d ≠ 0)
    (ht : s.sub.trained = true) :
    (IdMap.add s x).1 ≠ Except.error FaissError.dimensionMismatch ∧
    (IdMap.add_with_ids s x ids).1 ≠ Except.error FaissError.dimensionMismatch ∧
    (IdMap.train s x).1 ≠ Except.error FaissError.dimensionMismatch ∧
    (IdMap.search s x k).1 ≠ Except.error FaissError.dimensionMismatch ∧
    (IdMap.assign s x k).1 ≠ Except.error FaissError.dimensionMismatch ∧
    (IdMap.range_search s x radius).1 ≠ Except.error FaissError.dimensionMismatch ∧
    IdMap.ntotal (IdMap.add s x).2 = IdMap.ntotal s + x.length / s.sub.d ∧
    IdMap.add s x = IdMap.add s (x.take (x.length / s.sub.d * s.sub.d)) ∧
    IdMap.add_with_ids s x ids =
      IdMap.add_with_ids s (x.take (x.length / s.sub.d * s.sub.d)) ids ∧
    IdMap.train s x = IdMap.train s (x.take (x.length / s.sub.d * s.sub.d)) ∧
    IdMap.search s x k = IdMap.search s (x.take (x.length / s.sub.d * s.sub.d)) k ∧
    IdMap.assign s x k = IdMap.assign s (x.take (x.length / s.sub.d * s.sub.d)) k ∧
    IdMap.range_search s x radius =
      IdMap.range_search s (x.take (x.length / s.sub.d * s.sub.d)) radius := by
  have hnq : (x.take (x.length / s.sub.d * s.sub.d)).length / s.sub.d =
      x.length / s.sub.d := take_div_length s.sub.d x
  refine ⟨?_, ?_, ?_, ?_, ?_, ?_, ?_, ?_, ?_, ?_, ?_, ?_, ?_⟩
  · unfold IdMap.add faiss_Index_add_IDMap
    simp [ht]
  · unfold IdMap.add_with_ids faiss_Index_add_with_ids_IDMap
    simp [ht]
  · unfold IdMap.train faiss_Index_train_IDMap
    by_cases hc : x.length / IdMap.d s < s.sub.minTrainPoints <;> simp [hc]
  · unfold IdMap.search faiss_Index_search_IDMap
    simp [ht]
  · unfold IdMap.assign faiss_Index_assign_IDMap
    simp [ht]
  · unfold IdMap.range_search faiss_Index_range_search_IDMap
    simp [ht]
  · unfold IdMap.add faiss_Index_add_IDMap
    rw [d_unfold]
    simp [ht, ntotal_unfold, queryChunks_length]
  · unfold IdMap.add faiss_Index_add_IDMap
    rw [d_unfold, hnq, queryChunks_take]
  · unfold IdMap.add_with_ids faiss_Index_add_with_ids_IDMap
    rw [d_unfold, hnq, queryChunks_take]
  · unfold IdMap.train faiss_Index_train_IDMap
    rw [d_unfold, hnq]
  · unfold IdMap.search faiss_Index_search_IDMap distBlocks labelBlocks
    rw [d_unfold, hnq, searchBlocks_take]
  · unfold IdMap.assign faiss_Index_assign_IDMap labelBlocks
    rw [d_unfold, hnq, searchBlocks_take]
  · unfold IdMap.range_search faiss_Index_range_search_IDMap
    rw [d_unfold, hnq, rangeBlocks_take]

/-- Witness for C10: a five-element buffer on the two-dimensional
example state. -/
theorem partial_buffer_floored_witness :
    (IdMap.add exState [1, 2, 3, 4, 5]).1 ≠ Except.error FaissError.dimensionMismatch ∧
    (IdMap.add_with_ids exState [1, 2, 3, 4, 5] [7]).1 ≠
      Except.error FaissError.dimensionMismatch ∧
    (IdMap.train exState [1, 2, 3, 4, 5]).1 ≠ Except.error FaissError.dimensionMismatch ∧
    (IdMap.search exState [1, 2, 3, 4, 5] 1).1 ≠ Except.error FaissError.dimensionMismatch ∧
    (IdMap.assign exState [1, 2, 3, 4, 5] 1).1 ≠ Except.error FaissError.dimensionMismatch ∧
    (IdMap.range_search exState [1, 2, 3, 4, 5] 4).1 ≠
      Except.error FaissError.dimensionMismatch ∧
    IdMap.ntotal (IdMap.add exState [1, 2, 3, 4, 5]).2 =
      IdMap.ntotal exState + ([1, 2, 3, 4, 5] : List Int).length / exState.sub.d ∧
    IdMap.add exState [1, 2, 3, 4, 5] =
      IdMap.add exState (([1, 2, 3, 4, 5] : List Int).take
        (([1, 2, 3, 4, 5] : List Int).length / exState.sub.d * exState.sub.d)) ∧
    IdMap.add_with_ids exState [1, 2, 3, 4, 5] [7] =
      IdMap.add_with_ids exState (([1, 2, 3, 4, 5] : List Int).take
        (([1, 2, 3, 4, 5] : List Int).length / exState.sub.d * exState.sub.d)) [7] ∧
    IdMap.train exState [1, 2, 3, 4, 5] =
      IdMap.train exState (([1, 2, 3, 4, 5] : List Int).take
        (([1, 2, 3, 4, 5] : List Int).length / exState.sub.d * exState.sub.d)) ∧
    IdMap.search exState [1, 2, 3, 4, 5] 1 =
      IdMap.search exState (([1, 2, 3, 4, 5] : List Int).take
        (([1, 2, 3, 4, 5] : List Int).length / exState.sub.d * exState.sub.d)) 1 ∧
    IdMap.assign exState [1, 2, 3, 4, 5] 1 =
      IdMap.assign exState (([1, 2, 3, 4, 5] : List Int).take
        (([1, 2, 3, 4, 5] : List Int).length / exState.sub.d * exState.sub.d)) 1 ∧
    IdMap.range_search exState [1, 2, 3, 4, 5] 4 =
      IdMap.range_search exState (([1, 2, 3, 4, 5] : List Int).take
        (([1, 2, 3, 4, 5] : List Int).length / exState.sub.d * exState.sub.d)) 4 :=
  partial_buffer_floored exState [1, 2, 3, 4, 5] [7] 1 4
    (by decide) (by decide) (by decide)

/-- C9: the accessor queries are total pure functions of the state: the
metric accessor always decodes successfully (it reports exactly the
metric the index was constructed with, so the Rust `unwrap` cannot
panic), and the trained flag, total count and dimensionality are always
defined, with no effect on the state. -/
theorem accessors_total (s : FaissIndexIDMapState) :
    IdMap.metric_type s = some s.sub.metric ∧
    IdMap.is_trained s = s.sub.trained ∧
    IdMap.ntotal s = s.sub.xb.length ∧
    IdMap.d s = s.sub.d := by
  refine ⟨?_, is_trained_unfold s, ntotal_unfold s, d_unfold s⟩
  unfold IdMap.metric_type faiss_Index_metric_type_IDMap
  cases s.sub.metric <;> rfl

/-- C2: the ID-map wrapper releases every native handle exactly once:
across any number of wrap/unwrap cycles — whether the lifecycle ends by
dropping the standalone unwrapped index or by dropping a wrapper that
still owns the inner handle — every allocated handle (the inner index
handle and every mapping handle) occurs exactly once in the native free
log, and no unallocated handle is ever freed. -/
theorem handles_freed_exactly_once (n : Nat) (h : Nat) :
    (h < (Own.scenarioUnwrapped n).nextId →
        (Own.scenarioUnwrapped n).frees.count h = 1) ∧
    ((Own.scenarioUnwrapped n).nextId ≤ h →
        (Own.scenarioUnwrapped n).frees.count h = 0) ∧
    (h < (Own.scenarioWrapped n).nextId →
        (Own.scenarioWrapped n).frees.count h = 1) ∧
    ((Own.scenarioWrapped n).nextId ≤ h →
        (Own.scenarioWrapped n).frees.count h = 0) := by
  obtain ⟨si, of, hc, hl⟩ :=
    cycles_spec n Own.index0 Own.world0 (by decide) rfl
  have e1 : Own.scenarioUnwrapped n =
      { nextId := 1 + n, subIndex := si, ownFields := of,
        frees := List.range' 1 n ++ [0] } := by
    have hl0 : List.lookup 0 si = none := hl
    unfold Own.scenarioUnwrapped
    rw [hc]
    unfold Own.dropIndex Own.faiss_Index_free
    simp [hl0, Own.index0, Own.world0]
  have e2 : Own.scenarioWrapped n =
      { nextId := 1 + n + 1, subIndex := (1 + n, 0) :: si,
        ownFields := (1 + n, true) :: of,
        frees := List.range' 1 n ++ [1 + n, 0] } := by
    unfold Own.scenarioWrapped
    rw [hc]
    unfold Own.newOwn Own.faiss_IndexIDMap_new Own.faiss_IndexIDMap_set_own_fields
      Own.dropOwn Own.faiss_Index_free
    simp [Own.index0, Own.world0, List.lookup]
  have p1 : (List.range' 1 n ++ [0]).Perm (List.range (1 + n)) := by
    have : List.range (1 + n) = 0 :: List.range' 1 n := by
      rw [List.range_eq_range', Nat.add_comm, List.range'_succ]
    rw [this]
    exact List.perm_append_comm
  have p2 : (List.range' 1 n ++ [1 + n, 0]).Perm (List.range (1 + n + 1)) := by
    have h2 : List.range (1 + n + 1) = 0 :: (List.range' 1 n ++ [1 + n]) := by
      have ha : 1 + n + 1 = n + 1 + 1 := by omega
      rw [List.range_eq_range', ha, List.range'_succ, List.range'_concat]
      simp
    rw [h2]
    have : List.range' 1 n ++ [1 + n, 0] =
        (List.range' 1 n ++ [1 + n]) ++ [0] := by
      rw [List.append_assoc]
      rfl
    rw [this]
    exact List.perm_append_comm
  rw [e1, e2]
  refine ⟨?_, ?_, ?_, ?_⟩ <;> intro hh
  · rw [p1.count_eq]
    exact count_range_lt hh
  · rw [p1.count_eq]
    exact count_range_ge hh
  · rw [p2.count_eq]
    exact count_range_lt hh
  · rw [p2.count_eq]
    exact count_range_ge hh

/-- Witness for C2 with two wrap/unwrap cycles: handles 1 and 3 are
freed exactly once in the respective scenarios, and out-of-range
handles 7 and 9 never appear in the free log. -/
theorem handles_freed_exactly_once_witness :
    (Own.scenarioUnwrapped 2).frees.count 1 = 1 ∧
    (Own.scenarioUnwrapped 2).frees.count 7 = 0 ∧
    (Own.scenarioWrapped 2).frees.count 3 = 1 ∧
    (Own.scenarioWrapped 2).frees.count 9 = 0 :=
  ⟨(handles_freed_exactly_once 2 1).1 (by decide),
   (handles_freed_exactly_once 2 7).2.1 (by decide),
   (handles_freed_exactly_once 2 3).2.2.1 (by decide),
   (handles_freed_exactly_once 2 9).2.2.2 (by decide)⟩

end FaissRs
